import Mathlib

/-!
Verification of the daily-briefing repository post pipeline.

The definitions below are a shallow embedding of the Python source file
scripts/daily_bluesky_post.py.  Python strings are modelled as lists of
unicode characters (List Char), the environment and the signal file as
explicit parameters, and exceptions as Except.  Each definition carries a
comment pointing at the source lines it embeds.
-/

deriving instance DecidableEq for Except

namespace DailyBriefing

/-- Python str.lstrip (whitespace form): drop leading whitespace. -/
def lstrip (t : List Char) : List Char := t.dropWhile Char.isWhitespace

/-- Python str.rstrip (whitespace form): drop trailing whitespace. -/
def rstrip (t : List Char) : List Char := (t.reverse.dropWhile Char.isWhitespace).reverse

/-- Python str.strip (whitespace form): drop whitespace at both ends. -/
def pyStrip (t : List Char) : List Char := rstrip (lstrip t)

/-- Python substring containment: pat in s. -/
def containsSub (pat s : List Char) : Bool := s.tails.any (fun suf => pat.isPrefixOf suf)

/-- Python str.lower, per character. -/
def lowerStr (t : List Char) : List Char := t.map Char.toLower

/-- Python str.split() with no argument: split on whitespace runs, dropping
empty fields. -/
def pyWords (t : List Char) : List (List Char) :=
  (List.splitOnP Char.isWhitespace t).filter (fun w => w ≠ [])

/-- The apostrophe character, U+0027. -/
def apos : Char := Char.ofNat 39

/-- The required tag without trailing space: the literal string hash-t-a-n-k. -/
def tankStr : List Char := "#tank".data

/-- The required prefix with its trailing space. -/
def tankSp : List Char := "#tank ".data

/-- The special-mode marker prefix, tag plus SPECIAL colon. -/
def specialTag : List Char := "#tank SPECIAL:".data

/-- The special-mode marker prefix with trailing space. -/
def specialTagSp : List Char := "#tank SPECIAL: ".data

/-- Error kinds raised by the validation pipeline of openai_generate_post
(source lines 146-163); each constructor corresponds to one RuntimeError. -/
inductive PostError where
  | url
  | extraHashtag
  | emoji
  | firstPerson
deriving DecidableEq, Repr

/-- Source lines 128-133: enforce the required tag prefix.  If the text does
not start with tag-plus-space, then if it starts with the bare tag a space is
inserted (after lstrip of the remainder), otherwise the tag and a space are
prepended. -/
def enforceTank (t : List Char) : List Char :=
  if tankSp.isPrefixOf t then t
  else if tankStr.isPrefixOf t then tankSp ++ lstrip (t.drop 5)
  else tankSp ++ t

/-- Source lines 136-140: in flagged (special) mode, if the text does not
already start with the special marker but does start with tag-plus-space,
rebuild it as the special marker followed by the lstripped remainder. -/
def enforceSpecial (flagged : Bool) (t : List Char) : List Char :=
  if flagged && !(specialTag.isPrefixOf t) then
    if tankSp.isPrefixOf t then specialTagSp ++ lstrip (t.drop 6)
    else t
  else t

/-- Source lines 142-144: length cap.  If the text exceeds 200 characters it
becomes the first 197 characters, right-stripped, with three dots appended. -/
def truncate200 (t : List Char) : List Char :=
  if 200 < t.length then rstrip (t.take 197) ++ "...".data else t

/-- Source line 148: the lowered text contains one of the three URL markers. -/
def urlHit (t : List Char) : Bool :=
  containsSub "http://".data (lowerStr t) ||
  containsSub "https://".data (lowerStr t) ||
  containsSub "www.".data (lowerStr t)

/-- Source lines 151-152: some whitespace-delimited word starting with the
hash sigil differs (case-insensitively) from the required tag. -/
def extraHashtagHit (t : List Char) : Bool :=
  ((pyWords t).filter (fun w => w.head? = some '#')).any
    (fun h => lowerStr h ≠ tankStr)

/-- Source lines 156-158: some character lies in the pictographic range
U+1F300 to U+1FAFF. -/
def emojiHit (t : List Char) : Bool :=
  t.any (fun ch => decide (0x1F300 ≤ ch.toNat) && decide (ch.toNat ≤ 0x1FAFF))

/-- Source lines 160-163: the first-person patterns searched for in the
space-padded lowered text.  The fourth pattern has no trailing space. -/
def firstPersonPats : List (List Char) :=
  [" i ".data, " me ".data, " my ".data,
   [' ', 'i', apos, 'm'],
   " ive ".data,
   [' ', 'i', apos, 'v', 'e', ' ']]

/-- Source lines 160-163: pad the lowered text with one space on each side and
look for any of the first-person patterns as a substring. -/
def firstPersonHit (t : List Char) : Bool :=
  firstPersonPats.any (fun pat => containsSub pat (' ' :: (lowerStr t ++ [' '])))

/-- Source lines 146-163: the four safety checks, in source order (url, extra
hashtag, emoji, first person), returning the first failing kind. -/
def runChecks (t : List Char) : Option PostError :=
  if urlHit t then some PostError.url
  else if extraHashtagHit t then some PostError.extraHashtag
  else if emojiHit t then some PostError.emoji
  else if firstPersonHit t then some PostError.firstPerson
  else none

/-- Source lines 126-140: the text after strip, tag enforcement and special
marker enforcement, before the length cap. -/
def preTrunc (flagged : Bool) (raw : List Char) : List Char :=
  enforceSpecial flagged (enforceTank (pyStrip raw))

/-- Source lines 126-144: the text after all mutating stages, the input to the
safety checks and the value returned on success. -/
def pipeText (flagged : Bool) (raw : List Char) : List Char :=
  truncate200 (preTrunc flagged raw)

/-- Source lines 126-165: the whole validation pipeline of
openai_generate_post, from the stripped raw model output to either the
published text or the first raised error. -/
def normalize (flagged : Bool) (raw : List Char) : Except PostError (List Char) :=
  match runChecks (pipeText flagged raw) with
  | some e => Except.error e
  | none => Except.ok (pipeText flagged raw)

/-- A decoded JSON value as produced by json.loads: null maps to Python None,
objects to dicts (ordered field list), numbers modelled as integers. -/
inductive JsonVal where
  | null
  | bool (b : Bool)
  | num (n : Int)
  | str (s : String)
  | arr (xs : List JsonVal)
  | obj (fields : List (String × JsonVal))

/-- Python dict.get with default None: the first binding of the key, or null. -/
def dictGet (fields : List (String × JsonVal)) (key : String) : JsonVal :=
  match fields.find? (fun f => f.1 = key) with
  | some f => f.2
  | none => JsonVal.null

/-- Python truthiness bool(v) of a decoded JSON value. -/
def pyTruthy : JsonVal → Bool
  | JsonVal.null => false
  | JsonVal.bool b => b
  | JsonVal.num n => n != 0
  | JsonVal.str s => s ≠ ""
  | JsonVal.arr xs => !xs.isEmpty
  | JsonVal.obj fs => !fs.isEmpty

/-- Python equality of a decoded JSON value with a string: only a string value
can compare equal. -/
def pyEqStr (v : JsonVal) (t : String) : Bool :=
  match v with
  | JsonVal.str s => s = t
  | _ => false

/-- The observable state of the signal file: absent, read_text raising,
json.loads raising, or a successfully decoded value. -/
inductive FileState where
  | missing
  | unreadable
  | malformed
  | parsed (v : JsonVal)

/-- The only exception load_high_profile_signal can raise in the model:
attribute access .get on a decoded value that is not a dict. -/
inductive SignalError where
  | attributeError
deriving DecidableEq, Repr

/-- Source lines 28-56: load_high_profile_signal.  A missing file and any read
or parse failure yield (False, None); those paths are inside try/except.  The
subsequent data.get calls are outside the try block, so a decoded value that
is not a dict raises AttributeError.  The date field must equal today as a
string; the flag field is tested with bool(...) is not True, i.e. Python
truthiness; the summary is returned trimmed only when it is a string. -/
def load_high_profile_signal (today : String) :
    FileState → Except SignalError (Bool × Option String)
  | FileState.missing => Except.ok (false, none)
  | FileState.unreadable => Except.ok (false, none)
  | FileState.malformed => Except.ok (false, none)
  | FileState.parsed (JsonVal.obj fields) =>
      if !(pyEqStr (dictGet fields "date_utc") today) then Except.ok (false, none)
      else if !(pyTruthy (dictGet fields "flag")) then Except.ok (false, none)
      else
        match dictGet fields "summary" with
        | JsonVal.str s => Except.ok (true, some s.trim)
        | _ => Except.ok (true, none)
  | FileState.parsed _ => Except.error SignalError.attributeError

/-- True exactly when the file state is a decoded value that is not a dict,
the one shape on which the reader raises. -/
def parsedNonDict : FileState → Bool
  | FileState.parsed (JsonVal.obj _) => false
  | FileState.parsed _ => true
  | _ => false

/-- The error raised by require_env, source lines 17-21. -/
inductive ConfigError where
  | missingEnv (name : String)
deriving DecidableEq, Repr

/-- Source lines 17-21: require_env.  The environment is a partial map from
names to values; a missing variable or an empty value (both falsy in Python)
raise, otherwise the value is returned unchanged. -/
def require_env (env : String → Option String) (name : String) :
    Except ConfigError String :=
  match env name with
  | none => Except.error (ConfigError.missingEnv name)
  | some v => if v = "" then Except.error (ConfigError.missingEnv name) else Except.ok v

/-- One content entry of one output item of the generation response, carrying
its optional type and text fields (absent fields are None). -/
structure ContentEntry where
  type : Option String
  text : Option String
deriving DecidableEq, Repr

/-- Source line 117: the entry is selected when its type field is output_text
or text and its text field is truthy (present and non-empty). -/
def contentMatches (c : ContentEntry) : Bool :=
  (c.type = some "output_text" || c.type = some "text") && c.text.getD "" ≠ ""

/-- Source lines 116-119: the inner loop over one item.content, taking the
text of the first matching entry and breaking. -/
def findInItem : List ContentEntry → Option String
  | [] => none
  | c :: cs => if contentMatches c then c.text else findInItem cs

/-- Source lines 114-121: the outer loop over data.output, breaking as soon as
a text was found in some item. -/
def extractText : List (List ContentEntry) → Option String
  | [] => none
  | item :: rest =>
      match findInItem item with
      | some t => some t
      | none => extractText rest

/-- The error raised at source lines 123-124 when no text was found. -/
inductive GenError where
  | emptyGeneration
deriving DecidableEq, Repr

/-- Source lines 112-124: the response traversal of openai_generate_post,
raising when no usable text exists anywhere in the response. -/
def openai_extract (output : List (List ContentEntry)) : Except GenError String :=
  match extractText output with
  | some t => Except.ok t
  | none => Except.error GenError.emptyGeneration

/-- Modelled from the spec (claim C8 wording only, not from the source): a
token occurs as a whole word in a text when, case-insensitively, it appears at
some position with no alphanumeric character immediately on either side.  This
is compared against the source check firstPersonHit. -/
def specWholeWord (tok t : List Char) : Bool :=
  (List.range (t.length + 1)).any (fun i =>
    tok.isPrefixOf ((lowerStr t).drop i)
    && !((((lowerStr t).take i).getLast?).elim false Char.isAlphanum)
    && !(((((lowerStr t).drop i).drop tok.length).head?).elim false Char.isAlphanum))

/-- A string already in published form: trimmed, carrying the required prefix
(and in flagged mode the special marker), within the length cap, and passing
the four safety checks of the source.  This is the compliance notion of the
spec, section 4.2, made executable. -/
def compliant (flagged : Bool) (s : List Char) : Bool :=
  decide (pyStrip s = s)
  && tankSp.isPrefixOf s
  && (!flagged || specialTag.isPrefixOf s)
  && decide (s.length ≤ 200)
  && !(urlHit s) && !(extraHashtagHit s) && !(emojiHit s) && !(firstPersonHit s)

set_option maxRecDepth 8000

theorem isPrefixOf_append_self (l t : List Char) : l.isPrefixOf (l ++ t) = true := by
  induction l with
  | nil => simp [List.isPrefixOf]
  | cons a as ih => simp [List.isPrefixOf, ih]

theorem length_rstrip_le (t : List Char) : (rstrip t).length ≤ t.length := by
  unfold rstrip
  rw [List.length_reverse]
  calc (t.reverse.dropWhile Char.isWhitespace).length
      ≤ t.reverse.length := (List.dropWhile_sublist _).length_le
    _ = t.length := List.length_reverse t

theorem truncate200_length_le (t : List Char) : (truncate200 t).length ≤ 200 := by
  unfold truncate200
  split
  · rw [List.length_append]
    have h1 : (rstrip (t.take 197)).length ≤ 197 := by
      calc (rstrip (t.take 197)).length ≤ (t.take 197).length := length_rstrip_le _
        _ ≤ 197 := by rw [List.length_take]; omega
    have h2 : ("...".data).length = 3 := rfl
    omega
  · omega

theorem normalize_ok {flagged : Bool} {raw out : List Char}
    (h : normalize flagged raw = Except.ok out) :
    runChecks (pipeText flagged raw) = none ∧ out = pipeText flagged raw := by
  unfold normalize at h
  cases hc : runChecks (pipeText flagged raw) <;> rw [hc] at h
  · simp only [Except.ok.injEq] at h
    exact ⟨rfl, h.symm⟩
  · simp at h

theorem runChecks_none {t : List Char} (h1 : urlHit t = false)
    (h2 : extraHashtagHit t = false) (h3 : emojiHit t = false)
    (h4 : firstPersonHit t = false) : runChecks t = none := by
  simp [runChecks, h1, h2, h3, h4]

theorem runChecks_url {t : List Char} (h : urlHit t = true) :
    runChecks t = some PostError.url := by
  simp [runChecks, h]

theorem runChecks_hashtag {t : List Char} (h1 : urlHit t = false)
    (h2 : extraHashtagHit t = true) : runChecks t = some PostError.extraHashtag := by
  simp [runChecks, h1, h2]

theorem runChecks_firstPerson {t : List Char} (h1 : urlHit t = false)
    (h2 : extraHashtagHit t = false) (h3 : emojiHit t = false)
    (h4 : firstPersonHit t = true) : runChecks t = some PostError.firstPerson := by
  simp [runChecks, h1, h2, h3, h4]

/-- Claim C10: require_env raises on a missing environment variable and also
on one set to the empty string (both are falsy in Python), and returns the
value exactly when it is a non-empty string. -/
theorem c10_require_env_empty_as_missing :
    (∀ (env : String → Option String) (name : String), env name = none →
      require_env env name = Except.error (ConfigError.missingEnv name))
    ∧ (∀ (env : String → Option String) (name : String), env name = some "" →
      require_env env name = Except.error (ConfigError.missingEnv name))
    ∧ (∀ (env : String → Option String) (name : String) (v : String),
      env name = some v → v ≠ "" → require_env env name = Except.ok v) := by
  refine ⟨?_, ?_, ?_⟩
  · intro env name h
    simp [require_env, h]
  · intro env name h
    simp [require_env, h]
  · intro env name v h hv
    simp [require_env, h, hv]

/-- Witness for C10 at a concrete environment. -/
theorem c10_witness :
    require_env (fun _ => some "value") "OPENAI_API_KEY" = Except.ok "value" :=
  c10_require_env_empty_as_missing.2.2 (fun _ => some "value") "OPENAI_API_KEY"
    "value" rfl (by decide)

/-- Counterexample to claim C3: a signal file holding syntactically valid JSON
that is not an object (here an empty array) makes load_high_profile_signal
raise AttributeError, because only the read and the parse are guarded by the
try block, not the subsequent .get attribute accesses. -/
theorem c3_counterexample_nondict_raises :
    load_high_profile_signal "2026-10-12" (FileState.parsed (JsonVal.arr [])) =
      Except.error SignalError.attributeError := rfl

/-- Claim C3, amended: the signal reader returns normally with some pair for a
missing file, unreadable bytes, malformed JSON and any parsed JSON object; it
raises only when the parsed top-level value is not an object. -/
theorem c3_reader_total_on_dicts (today : String) (st : FileState)
    (h : parsedNonDict st = false) :
    ∃ r, load_high_profile_signal today st = Except.ok r := by
  cases st with
  | missing => exact ⟨_, rfl⟩
  | unreadable => exact ⟨_, rfl⟩
  | malformed => exact ⟨_, rfl⟩
  | parsed v =>
    cases v with
    | null => exact Bool.noConfusion h
    | bool b => exact Bool.noConfusion h
    | num n => exact Bool.noConfusion h
    | str s => exact Bool.noConfusion h
    | arr xs => exact Bool.noConfusion h
    | obj fields =>
      simp only [load_high_profile_signal]
      split
      · exact ⟨_, rfl⟩
      · split
        · exact ⟨_, rfl⟩
        · split <;> exact ⟨_, rfl⟩

/-- Witness for C3 at the missing-file state. -/
theorem c3_witness :
    ∃ r, load_high_profile_signal "2026-10-12" FileState.missing = Except.ok r :=
  c3_reader_total_on_dicts "2026-10-12" FileState.missing rfl

/-- Claim C4 is contradicted by the code: with the date field equal to today
and the flag field holding the STRING true rather than the boolean, the
truthiness test bool(data.get(flag)) is not True passes, so the reader reports
the day as flagged, against its own docstring (flag == true) and the claim. -/
theorem c4_string_flag_counts_as_flagged :
    load_high_profile_signal "2026-10-12"
      (FileState.parsed (JsonVal.obj
        [("date_utc", JsonVal.str "2026-10-12"), ("flag", JsonVal.str "true")])) =
      Except.ok (true, none) := by decide

theorem contentMatches_text {c : ContentEntry} (h : contentMatches c = true) :
    ∃ s, c.text = some s ∧ s ≠ "" := by
  unfold contentMatches at h
  rw [Bool.and_eq_true] at h
  cases ht : c.text with
  | none =>
    rw [ht] at h
    simp at h
  | some s =>
    refine ⟨s, rfl, ?_⟩
    rw [ht] at h
    simpa using h.2

theorem findInItem_eq_find? (cs : List ContentEntry) :
    findInItem cs = (cs.find? contentMatches).bind (fun c => c.text) := by
  induction cs with
  | nil => rfl
  | cons c cs ih =>
    by_cases h : contentMatches c = true
    · simp [findInItem, List.find?_cons_of_pos _ h, h]
    · rw [Bool.not_eq_true] at h
      have hfind : List.find? contentMatches (c :: cs) = List.find? contentMatches cs :=
        List.find?_cons_of_neg cs (by simp [h])
      simp [findInItem, h, hfind, ih]

theorem extractText_eq_find? (output : List (List ContentEntry)) :
    extractText output = (output.flatten.find? contentMatches).bind (fun c => c.text) := by
  induction output with
  | nil => rfl
  | cons item rest ih =>
    rw [List.flatten_cons, List.find?_append]
    cases h : item.find? contentMatches with
    | none =>
      have hfi : findInItem item = none := by
        rw [findInItem_eq_find?, h]
        rfl
      simp [extractText, hfi, ih, h]
    | some c =>
      obtain ⟨s, hs, -⟩ := contentMatches_text (List.find?_some h)
      have hfi : findInItem item = some s := by
        rw [findInItem_eq_find?, h]
        simpa using hs
      simp [extractText, hfi, h, hs]

/-- Claim C9: the response scan of openai_generate_post returns exactly the
text of the first content entry, in output order, whose type is output_text or
text and whose text is non-empty; when no entry matches anywhere it fails with
the empty-generation error, and a returned string is never empty. -/
theorem c9_first_text_entry_wins :
    (∀ output : List (List ContentEntry),
      openai_extract output =
        match output.flatten.find? contentMatches with
        | some c => Except.ok (c.text.getD "")
        | none => Except.error GenError.emptyGeneration)
    ∧ (∀ (output : List (List ContentEntry)) (t : String),
      openai_extract output = Except.ok t → t ≠ "") := by
  have hmain : ∀ output : List (List ContentEntry),
      openai_extract output =
        match output.flatten.find? contentMatches with
        | some c => Except.ok (c.text.getD "")
        | none => Except.error GenError.emptyGeneration := by
    intro output
    unfold openai_extract
    rw [extractText_eq_find?]
    cases h : output.flatten.find? contentMatches with
    | none => rfl
    | some c =>
      obtain ⟨s, hs, -⟩ := contentMatches_text (List.find?_some h)
      simp [hs]
  refine ⟨hmain, ?_⟩
  intro output t h
  rw [hmain output] at h
  cases hf : output.flatten.find? contentMatches with
  | none =>
    rw [hf] at h
    simp at h
  | some c =>
    rw [hf] at h
    simp only [Except.ok.injEq] at h
    obtain ⟨s, hs, hne⟩ := contentMatches_text (List.find?_some hf)
    rw [← h, hs]
    simpa using hne

/-- Witness for C9 at a one-item response. -/
theorem c9_witness : "hello" ≠ "" :=
  c9_first_text_entry_wins.2
    [[ContentEntry.mk (some "output_text") (some "hello")]] "hello" (by decide)

/-- Counterexample to claim C1: a raw text holding the extra hashtag token
hash-bad beyond the 197 character cut point is truncated first, so the
hashtag check never sees the extra tag and normalize returns successfully
instead of raising; rejection is therefore not checked before truncation. -/
theorem c1_counterexample_hashtag_beyond_cut :
    normalize false (List.replicate 200 'a' ++ " #bad".data) =
      Except.ok ("#tank ".data ++ List.replicate 191 'a' ++ "...".data) := by decide

/-- Claim C1, amended: the length cap runs before the four safety checks, so
the hashtag rejection fires exactly when the extra hashtag survives into the
truncated text; when no truncation occurs (pre-cap text within 200 chars)
and no link is present (links are checked first), an extra hashtag yields the
extra-hashtag rejection. -/
theorem c1_hashtag_rejected_after_truncation (flagged : Bool) (raw : List Char)
    (hlen : (preTrunc flagged raw).length ≤ 200)
    (hurl : urlHit (preTrunc flagged raw) = false)
    (hhash : extraHashtagHit (preTrunc flagged raw) = true) :
    normalize flagged raw = Except.error PostError.extraHashtag := by
  have ht : pipeText flagged raw = preTrunc flagged raw := by
    unfold pipeText truncate200
    rw [if_neg]
    omega
  unfold normalize
  rw [ht, runChecks_hashtag hurl hhash]

/-- Witness for C1 at a short raw text with an extra hashtag. -/
theorem c1_witness :
    normalize false "hello #bad".data = Except.error PostError.extraHashtag :=
  c1_hashtag_rejected_after_truncation false "hello #bad".data
    (by decide) (by decide) (by decide)

/-- Counterexample to claim C2: a raw text whose only link starts beyond the
197 character cut point is truncated first, the link is cut away with the
tail, and normalize returns successfully instead of raising. -/
theorem c2_counterexample_url_beyond_cut :
    normalize false (List.replicate 192 'a' ++ " https://example.com".data) =
      Except.ok ("#tank ".data ++ List.replicate 191 'a' ++ "...".data) := by decide

/-- Claim C2, amended: the link rejection is evaluated on the truncated text;
whenever one of the three case-insensitive markers survives in the final
(post-truncation) text, normalize raises the url rejection, and it is checked
first among the four safety checks. -/
theorem c2_url_in_final_text_rejected (flagged : Bool) (raw : List Char)
    (h : urlHit (pipeText flagged raw) = true) :
    normalize flagged raw = Except.error PostError.url := by
  unfold normalize
  rw [runChecks_url h]

/-- Witness for C2 at a short raw text holding a link. -/
theorem c2_witness :
    normalize false "see https://example.com".data = Except.error PostError.url :=
  c2_url_in_final_text_rejected false "see https://example.com".data (by decide)

/-- Counterexample to claim C5: on a 250 character run of the letter a the cut
is a hard slice at index 197; the truncated output is returned successfully,
the character of the staged text right after the cut is the letter a (not
whitespace), so the cut lands mid-word, against the claimed whitespace
boundary. -/
theorem c5_counterexample_midword_cut :
    normalize false (List.replicate 250 'a') =
      Except.ok ("#tank ".data ++ List.replicate 191 'a' ++ "...".data)
    ∧ ((preTrunc false (List.replicate 250 'a')).drop 197).head? = some 'a'
    ∧ Char.isWhitespace 'a' = false :=
  ⟨by decide, by decide, by decide⟩

/-- Claim C5, amended: truncation is a hard cut, not a word-boundary cut: when
the staged text exceeds 200 characters, any successful output is exactly the
first 197 characters right-stripped with three dots appended, regardless of
where word boundaries lie. -/
theorem c5_truncation_hard_cut (flagged : Bool) (raw out : List Char)
    (hlen : 200 < (preTrunc flagged raw).length)
    (h : normalize flagged raw = Except.ok out) :
    out = rstrip ((preTrunc flagged raw).take 197) ++ "...".data := by
  obtain ⟨-, h2⟩ := normalize_ok h
  rw [h2]
  unfold pipeText truncate200
  rw [if_pos hlen]

/-- Witness for C5 at the 250 character input. -/
theorem c5_witness :
    "#tank ".data ++ List.replicate 191 'a' ++ "...".data =
      rstrip ((preTrunc false (List.replicate 250 'a')).take 197) ++ "...".data :=
  c5_truncation_hard_cut false (List.replicate 250 'a')
    ("#tank ".data ++ List.replicate 191 'a' ++ "...".data) (by decide) (by decide)

/-- Claim C7: every successful output of the short-form pipeline has at most
200 characters; the stages after truncation only check, never lengthen. -/
theorem c7_output_length_le_200 (flagged : Bool) (raw out : List Char)
    (h : normalize flagged raw = Except.ok out) : out.length ≤ 200 := by
  obtain ⟨-, h2⟩ := normalize_ok h
  rw [h2]
  exact truncate200_length_le _

/-- Witness for C7 at a short raw text. -/
theorem c7_witness : ("#tank hello".data).length ≤ 200 :=
  c7_output_length_le_200 false "hello".data "#tank hello".data (by decide)

/-- Counterexample to claim C8: in the text hash-tank Trust me period, the
token me occurs as a whole word, case-insensitively, with the sentence period
as its right neighbour, yet normalize accepts the text unchanged: the source
searches only for space-delimited patterns inside the space-padded lowered
text, so an occurrence adjacent to punctuation is missed. -/
theorem c8_counterexample_punctuation_adjacent :
    specWholeWord "me".data "#tank Trust me.".data = true
    ∧ normalize false "#tank Trust me.".data = Except.ok "#tank Trust me.".data :=
  ⟨by decide, by decide⟩

/-- Claim C8, amended: given that the three earlier checks pass on the final
text, the first-person rejection fires exactly when one of the six
space-delimited patterns of firstPersonPats occurs as a substring of the
space-padded lowered final text; whole-word occurrences whose neighbour is
punctuation rather than a space are not matched. -/
theorem c8_first_person_space_delimited (flagged : Bool) (raw : List Char)
    (hurl : urlHit (pipeText flagged raw) = false)
    (hhash : extraHashtagHit (pipeText flagged raw) = false)
    (hemo : emojiHit (pipeText flagged raw) = false) :
    normalize flagged raw = Except.error PostError.firstPerson
      ↔ firstPersonHit (pipeText flagged raw) = true := by
  constructor
  · intro h
    by_contra hfp
    rw [Bool.not_eq_true] at hfp
    have hok : normalize flagged raw = Except.ok (pipeText flagged raw) := by
      unfold normalize
      rw [runChecks_none hurl hhash hemo hfp]
    rw [hok] at h
    exact Except.noConfusion h
  · intro h
    unfold normalize
    rw [runChecks_firstPerson hurl hhash hemo h]

/-- Witness for C8 at a text with a space-delimited first-person token. -/
theorem c8_witness :
    normalize false "#tank trust me here".data = Except.error PostError.firstPerson :=
  (c8_first_person_space_delimited false "#tank trust me here".data
    (by decide) (by decide) (by decide)).mpr (by decide)

theorem tankSp_prefix_imp_tankStr {s : List Char} (h : tankSp.isPrefixOf s = true) :
    tankStr.isPrefixOf s = true := by
  have h1 : tankSp <+: s := by simpa using h
  have h2 : tankStr <+: tankSp := ⟨[' '], rfl⟩
  simpa using h2.trans h1

theorem enforceTank_eq_self {s : List Char} (h : tankSp.isPrefixOf s = true) :
    enforceTank s = s := by
  unfold enforceTank
  rw [if_pos h]

theorem enforceTank_insert_space {s : List Char} (h1 : tankStr.isPrefixOf s = true)
    (h2 : tankSp.isPrefixOf s = false) :
    enforceTank s = tankSp ++ lstrip (s.drop 5) := by
  unfold enforceTank
  rw [if_neg (by simp [h2]), if_pos h1]

theorem enforceTank_prepends {s : List Char} (h : tankStr.isPrefixOf s = false) :
    enforceTank s = tankSp ++ s := by
  have h2 : tankSp.isPrefixOf s = false := by
    by_contra hc
    rw [Bool.not_eq_false] at hc
    rw [tankSp_prefix_imp_tankStr hc] at h
    exact Bool.noConfusion h
  unfold enforceTank
  rw [if_neg (by simp [h2]), if_neg (by simp [h])]

theorem enforceTank_starts (s : List Char) :
    tankSp.isPrefixOf (enforceTank s) = true := by
  by_cases h1 : tankSp.isPrefixOf s = true
  · rw [enforceTank_eq_self h1]
    exact h1
  · rw [Bool.not_eq_true] at h1
    by_cases h2 : tankStr.isPrefixOf s = true
    · rw [enforceTank_insert_space h2 h1]
      exact isPrefixOf_append_self _ _
    · rw [Bool.not_eq_true] at h2
      rw [enforceTank_prepends h2]
      exact isPrefixOf_append_self _ _

theorem enforceTank_idem (s : List Char) :
    enforceTank (enforceTank s) = enforceTank s :=
  enforceTank_eq_self (enforceTank_starts s)

/-- Claim C6: the tag repair prepends the tag exactly once when it is absent,
inserts just the separating space (lstripping the remainder) when the bare tag
is present, leaves a correctly prefixed text unchanged (so the tag is never
duplicated), is idempotent as a stage, and the whole pipeline returns an
already-compliant string unchanged. -/
theorem c6_prefix_repair_and_idempotence :
    (∀ s : List Char, tankStr.isPrefixOf s = false → enforceTank s = tankSp ++ s)
    ∧ (∀ s : List Char, tankStr.isPrefixOf s = true → tankSp.isPrefixOf s = false →
        enforceTank s = tankSp ++ lstrip (s.drop 5))
    ∧ (∀ s : List Char, tankSp.isPrefixOf s = true → enforceTank s = s)
    ∧ (∀ s : List Char, enforceTank (enforceTank s) = enforceTank s)
    ∧ (∀ (flagged : Bool) (s : List Char), compliant flagged s = true →
        normalize flagged s = Except.ok s) := by
  refine ⟨fun s h => enforceTank_prepends h,
    fun s h1 h2 => enforceTank_insert_space h1 h2,
    fun s h => enforceTank_eq_self h,
    enforceTank_idem, ?_⟩
  intro flagged s h
  simp only [compliant, Bool.and_eq_true, decide_eq_true_eq, Bool.not_eq_true'] at h
  obtain ⟨⟨⟨⟨⟨⟨⟨hstrip, hp⟩, hmode⟩, hlen⟩, hurl⟩, hhash⟩, hemo⟩, hfp⟩ := h
  have e3 : enforceSpecial flagged (enforceTank (pyStrip s)) = s := by
    rw [hstrip, enforceTank_eq_self hp]
    unfold enforceSpecial
    cases flagged with
    | false => simp
    | true =>
      have hsp : specialTag.isPrefixOf s = true := by simpa using hmode
      simp [hsp]
  have e4 : pipeText flagged s = s := by
    unfold pipeText preTrunc
    rw [e3]
    unfold truncate200
    rw [if_neg]
    omega
  unfold normalize
  rw [e4, runChecks_none hurl hhash hemo hfp]

/-- Witness for C6 at a concrete already-compliant string. -/
theorem c6_witness :
    normalize false "#tank steady words only".data =
      Except.ok "#tank steady words only".data :=
  c6_prefix_repair_and_idempotence.2.2.2.2 false "#tank steady words only".data
    (by decide)

end DailyBriefing
